import Mathlib

/-!
Verification of the content-based recommendation engine of the news-reco
repository (`src/ml/recommender.py` and `src/ml/trainer.py`), via a shallow
embedding.  Article text vectorization (sklearn's `TfidfVectorizer`) is kept
abstract as a pair of functions producing rational vectors; everything the
claims depend on — the pandas `DataFrame`-shaped corpus, the fit checks and
state updates, the `np.argsort(...)[::-1]` ranking with its slice-based
self-exclusion, the positive-similarity filter, the identifier map, and the
trainer's train/save/load cycle — is translated directly from the source.
`np.argsort` is modelled by a stable insertion sort on indices: NumPy's
default sort guarantees only value-sortedness, not a tie order (it is
insertion sort, hence stable, only below 16 elements), so the stable sort is
an exact model for the short arrays evaluated concretely and one admissible
tie order in general; theorems quantifying over all corpora use only the
value-sortedness that every argsort kind guarantees.  Cosine similarity of
the already L2-normalized TF-IDF rows is the dot product over ℚ, and the
vectorizer's `fit_transform` is fallible (sklearn raises `ValueError` on an
empty vocabulary).
-/

namespace NewsReco

/-- One record of the corpus.  Each field mirrors a pandas cell; `none`
models a missing value (`NaN`). -/
structure Row where
  article_id : Option Int
  title : Option String
  content : Option String
  source_name : Option String
deriving Repr, DecidableEq, Inhabited

/-- A pandas `DataFrame`: a set of column names plus the record list.  A
record's cell is meaningful only when its column is present; a record built
without some field has `none` (NaN) there. -/
structure DataFrame where
  cols : List String
  rows : List Row
deriving Repr, DecidableEq, Inhabited

/-- Abstraction of sklearn's `TfidfVectorizer`: `fitTransform` maps the
combined document texts to the TF-IDF row vectors, or fails with the message
of the `ValueError` sklearn raises (e.g. "empty vocabulary" when no token of
any document survives tokenization and stop-word removal); `transform` maps
a free query text to its vector in the learned space. -/
structure Vectorizer where
  fitTransform : List String → Except String (List (List ℚ))
  transform : String → List ℚ

/-- Errors raised by `ContentBasedRecommender.fit` (`ValueError` on an empty
frame, `ValueError` on a missing content column, pandas `KeyError` when a
column accessed during fitting is absent, and the `ValueError` propagated
out of `TfidfVectorizer.fit_transform`). -/
inductive FitError where
  | emptyCorpus
  | missingContentColumn
  | keyError (col : String)
  | vectorizerError (msg : String)
deriving Repr, DecidableEq

/-- Error raised by the query operations before a successful fit/load. -/
inductive QueryError where
  | notFitted
deriving Repr, DecidableEq

/-- Errors raised by the trainer (`ValueError` on save without a model,
`FileNotFoundError` on load of a missing file). -/
inductive StoreError where
  | noModel
  | modelNotFound
deriving Repr, DecidableEq

/-- The mutable state of a `ContentBasedRecommender` instance. -/
structure RecState where
  vectorizer : Vectorizer
  tfidf_matrix : Option (List (List ℚ))
  articles_df : Option DataFrame
  article_mapping : List (Nat × Option Int)

/-- `ContentBasedRecommender.__init__`. -/
def initRecommender (vz : Vectorizer) : RecState :=
  { vectorizer := vz
    tfidf_matrix := none
    articles_df := none
    article_mapping := [] }

/-- Dot product of two vectors (extra coordinates of the longer one are
ignored, matching equal-dimension matrix rows). -/
def dot (u v : List ℚ) : ℚ :=
  (List.zipWith (· * ·) u v).sum

/-- Sum of squares of a vector's coordinates. -/
def sumSq (u : List ℚ) : ℚ :=
  (u.map (fun x => x * x)).sum

/-- `cosine_similarity(q, M)[0]`: sklearn re-normalizes its arguments, which
is the identity on the already L2-normalized TF-IDF rows (zero rows stay
zero), so each entry is the plain dot product. -/
def similarities (q : List ℚ) (M : List (List ℚ)) : List ℚ :=
  M.map (fun r => dot q r)

/-- Comparison underlying the argsort model: order indices by value, ties by
index (the stable tie order). -/
def npLe (xs : List ℚ) (i j : Nat) : Prop :=
  xs.getD i 0 < xs.getD j 0 ∨ (xs.getD i 0 = xs.getD j 0 ∧ i ≤ j)

instance (xs : List ℚ) (i j : Nat) : Decidable (npLe xs i j) :=
  inferInstanceAs (Decidable (xs.getD i 0 < xs.getD j 0 ∨
    (xs.getD i 0 = xs.getD j 0 ∧ i ≤ j)))

instance (xs : List ℚ) : IsTotal Nat (npLe xs) where
  total i j := by
    rcases lt_trichotomy (xs.getD i 0) (xs.getD j 0) with h | h | h
    · exact Or.inl (Or.inl h)
    · rcases Nat.le_total i j with hij | hij
      · exact Or.inl (Or.inr ⟨h, hij⟩)
      · exact Or.inr (Or.inr ⟨h.symm, hij⟩)
    · exact Or.inr (Or.inl h)

instance (xs : List ℚ) : IsTrans Nat (npLe xs) where
  trans i j k hij hjk := by
    rcases hij with h1 | ⟨h1, h1'⟩
    · rcases hjk with h2 | ⟨h2, _⟩
      · exact Or.inl (h1.trans h2)
      · exact Or.inl (h2 ▸ h1)
    · rcases hjk with h2 | ⟨h2, h2'⟩
      · exact Or.inl (h1 ▸ h2)
      · exact Or.inr ⟨h1.trans h2, h1'.trans h2'⟩

/-- `np.argsort(xs)`: an index permutation sorting `xs` ascending.  NumPy's
default kind guarantees the value order but not the order of equal values
(its introsort degenerates to stable insertion sort only below 16 elements),
so the stable insertion sort used here is exact for the short arrays the
concrete corpora produce and one admissible refinement of the unspecified
tie order otherwise; theorems over arbitrary corpora rely only on the value
order. -/
def argsortAsc (xs : List ℚ) : List Nat :=
  List.insertionSort (npLe xs) (List.range xs.length)

/-- One entry of a recommendation result list. -/
structure RecItem where
  article_id : Option Int
  title : Option String
  similarity_score : ℚ
  source : Option String
deriving Repr, DecidableEq

/-- Default frame used when `articles_df` was never stored (the query paths
only reach it on a fitted state). -/
def emptyDf : DataFrame := ⟨[], []⟩

/-- Builds one result dict from `self.articles_df.iloc[idx]`.  The source
field follows pandas `Series.get`: the default "Unknown" applies only when
the `source_name` column is absent; a present column with NaN yields NaN. -/
def mkItem (df : DataFrame) (sims : List ℚ) (i : Nat) : RecItem :=
  let a := df.rows.getD i default
  { article_id := a.article_id
    title := a.title
    similarity_score := sims.getD i 0
    source := if "source_name" ∈ df.cols then a.source_name else some "Unknown" }

/-- `np.argsort(similarities)[::-1][1:n+1]`: reverse, drop the top-ranked
row, take the next `n`. -/
def articleTopIndices (sims : List ℚ) (n : Nat) : List Nat :=
  (((argsortAsc sims).reverse).drop 1).take n

/-- `np.argsort(similarities)[::-1][:n]` followed by the loop that keeps
only strictly positive similarities. -/
def contentTopIndices (sims : List ℚ) (n : Nat) : List Nat :=
  (((argsortAsc sims).reverse).take n).filter (fun i => decide (0 < sims.getD i 0))

/-- `ContentBasedRecommender.recommend`. -/
def recommend (st : RecState) (article_id : Int) (n : Nat) :
    Except QueryError (List RecItem) :=
  match st.tfidf_matrix with
  | none => .error .notFitted
  | some M =>
    let hits := (st.article_mapping.filter
      (fun p => decide (p.2 = some article_id))).map (fun p => p.1)
    match hits with
    | [] => .ok []
    | article_idx :: _ =>
      let df := st.articles_df.getD emptyDf
      let sims := similarities (M.getD article_idx []) M
      .ok ((articleTopIndices sims n).map (mkItem df sims))

/-- `ContentBasedRecommender.recommend_for_content`. -/
def recommend_for_content (st : RecState) (content : String) (n : Nat) :
    Except QueryError (List RecItem) :=
  match st.tfidf_matrix with
  | none => .error .notFitted
  | some M =>
    let df := st.articles_df.getD emptyDf
    let sims := similarities (st.vectorizer.transform content) M
    .ok ((contentTopIndices sims n).map (mkItem df sims))

/-- The dict comprehension `{idx: row["article_id"] for idx, row in
articles_df.iterrows()}` (positions as index labels, per the RangeIndex of
every corpus the trainer builds). -/
def buildMapping (rows : List Row) : List (Nat × Option Int) :=
  rows.enum.map (fun p => (p.1, p.2.article_id))

/-- The per-record document text `title.fillna("") + " " + content.fillna("")`. -/
def combinedText (df : DataFrame) : List String :=
  df.rows.map (fun r => r.title.getD "" ++ " " ++ r.content.getD "")

/-- `ContentBasedRecommender.fit`, returned as (outcome, state after the
call).  `articles_df.empty` is true when either axis has length zero, so a
frame with rows but no columns also takes the empty-corpus branch.  The two
explicit checks happen before any assignment; the pandas `KeyError`s on
absent `article_id` / `title` columns, and a `fit_transform` failure, fire
after the earlier assignments already happened, which the partially updated
error states record faithfully (in particular a `fit_transform` failure
leaves the old matrix with the new frame and mapping). -/
def fit (st : RecState) (df : DataFrame) : Except FitError Unit × RecState :=
  if df.rows.isEmpty || df.cols.isEmpty then (.error .emptyCorpus, st)
  else if "content" ∉ df.cols then (.error .missingContentColumn, st)
  else
    let st1 := { st with articles_df := some df }
    if "article_id" ∉ df.cols then (.error (.keyError "article_id"), st1)
    else
      let st2 := { st1 with article_mapping := buildMapping df.rows }
      if "title" ∉ df.cols then (.error (.keyError "title"), st2)
      else
        match st.vectorizer.fitTransform (combinedText df) with
        | .error msg => (.error (.vectorizerError msg), st2)
        | .ok M => (.ok (), { st2 with tfidf_matrix := some M })

/-- The state of a `RecommenderTrainer`, with the model directory as an
association list from filename to the pickled recommender (pickle preserves
the value it serialized). -/
structure Trainer where
  recommender : Option RecState
  files : List (String × RecState)

/-- `RecommenderTrainer.__init__`. -/
def initTrainer : Trainer := ⟨none, []⟩

/-- `df["article_id"] = range(len(df))`: every row gets the sequential
identifier, any existing column is overwritten. -/
def setSequentialIds (df : DataFrame) : DataFrame :=
  { cols := if "article_id" ∈ df.cols then df.cols else df.cols ++ ["article_id"]
    rows := df.rows.enum.map (fun p => { p.2 with article_id := some (p.1 : Int) }) }

/-- `RecommenderTrainer.train_from_csv` (the CSV already parsed into the
frame).  A fresh recommender replaces `self.recommender` before `fit` runs,
so a `fit` failure still leaves the partially updated instance behind; on
success the fitted recommender is both stored and returned. -/
def train_from_csv (vz : Vectorizer) (t : Trainer) (df : DataFrame) :
    Except FitError RecState × Trainer :=
  ((fit (initRecommender vz) (setSequentialIds df)).1.map
      (fun _ => (fit (initRecommender vz) (setSequentialIds df)).2),
   { t with recommender := some (fit (initRecommender vz) (setSequentialIds df)).2 })

/-- `RecommenderTrainer.save_model`. -/
def save_model (t : Trainer) (filename : String) : Except StoreError String × Trainer :=
  match t.recommender with
  | none => (.error .noModel, t)
  | some r => (.ok filename, { t with files := (filename, r) :: t.files })

/-- `RecommenderTrainer.load_model`. -/
def load_model (t : Trainer) (filename : String) : Except StoreError RecState × Trainer :=
  match t.files.lookup filename with
  | none => (.error .modelNotFound, t)
  | some r => (.ok r, { t with recommender := some r })

/-! Concrete vectorizers and corpora used to evaluate the embedded code on
the inputs the claims are settled at. -/

/-- Vectorizer behaving like TF-IDF on a corpus of identical documents with
a non-empty vocabulary: every document (and the query) gets the same unit
vector. -/
def unitVec : Vectorizer :=
  ⟨fun docs => .ok (docs.map (fun _ => [1])), fun _ => [1]⟩

/-- Vectorizer behaving like TF-IDF on two documents with disjoint
vocabularies; queries transform to the first document's vector. -/
def orthoVec : Vectorizer :=
  ⟨fun docs => .ok (docs.enum.map (fun p => if p.1 = 0 then [1, 0] else [0, 1])),
   fun _ => [1, 0]⟩

/-- Two articles with identical title and content, ids 1 and 2. -/
def dfDup : DataFrame :=
  ⟨["article_id", "title", "content"],
   [⟨some 1, some "Same", some "same text", none⟩,
    ⟨some 2, some "Same", some "same text", none⟩]⟩

/-- Recommender fitted on the duplicate corpus. -/
def stDup : RecState := (fit (initRecommender unitVec) dfDup).2

/-- Two articles about unrelated topics (orthogonal vectors), ids 1 and 2. -/
def dfOrtho : DataFrame :=
  ⟨["article_id", "title", "content"],
   [⟨some 1, some "Machine Learning", some "machine learning basics", none⟩,
    ⟨some 2, some "Web Development", some "frontend backend html", none⟩]⟩

/-- Recommender fitted on the unrelated-topics corpus. -/
def stOrtho : RecState := (fit (initRecommender orthoVec) dfOrtho).2

/-- A corpus whose second record arrived without a content field (NaN cell
in the present content column). -/
def dfMixed : DataFrame :=
  ⟨["article_id", "title", "content"],
   [⟨some 1, some "A", some "some text", none⟩,
    ⟨some 2, some "B", none, none⟩]⟩

/-- A one-record corpus that already carries article_id 5. -/
def dfPreId : DataFrame :=
  ⟨["article_id", "title", "content"],
   [⟨some 5, some "T", some "body", none⟩]⟩

/-- A well-formed one-record corpus without identifiers. -/
def dfPlain : DataFrame :=
  ⟨["title", "content"],
   [⟨none, some "T", some "body", none⟩]⟩

/-- A frame with a content column but zero rows. -/
def dfNoRows : DataFrame := ⟨["content"], []⟩

/-- Output of the by-text query on the duplicate corpus for its own text. -/
def c3out : List RecItem :=
  [⟨some 2, some "Same", 1, some "Unknown"⟩,
   ⟨some 1, some "Same", 1, some "Unknown"⟩]

/-! ## Properties of the argsort model -/

theorem argsort_perm (xs : List ℚ) :
    List.Perm (argsortAsc xs) (List.range xs.length) :=
  List.perm_insertionSort (npLe xs) (List.range xs.length)

theorem argsort_nodup (xs : List ℚ) : (argsortAsc xs).Nodup :=
  ((argsort_perm xs).nodup_iff).mpr (List.nodup_range _)

theorem argsort_sorted (xs : List ℚ) :
    (argsortAsc xs).Pairwise (npLe xs) :=
  List.sorted_insertionSort (npLe xs) (List.range xs.length)

/-- The reversed argsort ranks strictly: earlier entries have strictly larger
value, or equal value and strictly larger index. -/
theorem rev_argsort_pairwise (xs : List ℚ) :
    ((argsortAsc xs).reverse).Pairwise (fun i j =>
      xs.getD j 0 < xs.getD i 0 ∨ (xs.getD i 0 = xs.getD j 0 ∧ j < i)) := by
  have hnodup : (argsortAsc xs).Pairwise (fun a b => a ≠ b) := argsort_nodup xs
  have hboth := (argsort_sorted xs).and hnodup
  refine List.pairwise_reverse.mpr (hboth.imp ?_)
  rintro a b ⟨hab | ⟨heq, hle⟩, hne⟩
  · exact Or.inl hab
  · exact Or.inr ⟨heq.symm, lt_of_le_of_ne hle hne⟩

/-- The by-text ranking inherits the strict descending order. -/
theorem contentTopIndices_pairwise (xs : List ℚ) (n : Nat) :
    (contentTopIndices xs n).Pairwise (fun i j =>
      xs.getD j 0 < xs.getD i 0 ∨ (xs.getD i 0 = xs.getD j 0 ∧ j < i)) :=
  List.Pairwise.sublist
    ((List.filter_sublist _).trans (List.take_sublist _ _))
    (rev_argsort_pairwise xs)

/-! ## Bounds on the similarity values -/

theorem sumSq_nil : sumSq ([] : List ℚ) = 0 := rfl

theorem sumSq_cons (a : ℚ) (u : List ℚ) : sumSq (a :: u) = a * a + sumSq u := by
  simp [sumSq]

theorem dot_nil_left (v : List ℚ) : dot [] v = 0 := rfl

theorem dot_nil_right (u : List ℚ) : dot u [] = 0 := by cases u <;> rfl

theorem dot_cons_cons (a b : ℚ) (u w : List ℚ) :
    dot (a :: u) (b :: w) = a * b + dot u w := by
  simp [dot]

theorem sumSq_nonneg (u : List ℚ) : 0 ≤ sumSq u := by
  induction u with
  | nil => simp [sumSq_nil]
  | cons a u ih =>
    rw [sumSq_cons]
    exact add_nonneg (mul_self_nonneg a) ih

theorem dot_nonneg (u v : List ℚ) (hu : ∀ x ∈ u, 0 ≤ x) (hv : ∀ x ∈ v, 0 ≤ x) :
    0 ≤ dot u v := by
  induction u generalizing v with
  | nil => simp [dot_nil_left]
  | cons a u ih =>
    cases v with
    | nil => simp [dot_nil_right]
    | cons b w =>
      rw [dot_cons_cons]
      refine add_nonneg (mul_nonneg (hu a (by simp)) (hv b (by simp))) ?_
      exact ih w (fun x hx => hu x (List.mem_cons_of_mem a hx))
        (fun x hx => hv x (List.mem_cons_of_mem b hx))

theorem dot_le_half_sumSq (u v : List ℚ) :
    dot u v ≤ (sumSq u + sumSq v) / 2 := by
  induction u generalizing v with
  | nil =>
    have h1 := sumSq_nonneg v
    rw [dot_nil_left, sumSq_nil]
    linarith
  | cons a u ih =>
    cases v with
    | nil =>
      have h1 := sumSq_nonneg (a :: u)
      rw [dot_nil_right, sumSq_nil]
      linarith
    | cons b w =>
      have h1 := ih w
      have h2 : a * b ≤ (a * a + b * b) / 2 := by nlinarith [sq_nonneg (a - b)]
      rw [dot_cons_cons, sumSq_cons, sumSq_cons]
      linarith

theorem dot_le_one (u v : List ℚ) (hu : sumSq u ≤ 1) (hv : sumSq v ≤ 1) :
    dot u v ≤ 1 :=
  le_trans (dot_le_half_sumSq u v) (by linarith)

/-- Every entry read off the similarity vector (including the out-of-range
default 0) lies in [0, 1], provided the query vector and the matrix rows are
coordinatewise non-negative with sum of squares at most 1. -/
theorem simsGetD_bounds (q : List ℚ) (M : List (List ℚ)) (i : Nat)
    (hq0 : ∀ x ∈ q, 0 ≤ x) (hq1 : sumSq q ≤ 1)
    (hM : ∀ row ∈ M, (∀ x ∈ row, 0 ≤ x) ∧ sumSq row ≤ 1) :
    0 ≤ (similarities q M).getD i 0 ∧ (similarities q M).getD i 0 ≤ 1 := by
  rcases Nat.lt_or_ge i (similarities q M).length with hlt | hge
  · have hval : (similarities q M).getD i 0 = (similarities q M)[i] := by
      simp [List.getD_eq_getElem?_getD, List.getElem?_eq_getElem hlt]
    have hlen : i < M.length := by
      simpa [similarities] using hlt
    have hrow : (similarities q M)[i] = dot q M[i] := by
      simp [similarities]
    have hmem : M[i] ∈ M := List.getElem_mem hlen
    rw [hval, hrow]
    exact ⟨dot_nonneg q _ hq0 (hM _ hmem).1, dot_le_one q _ hq1 (hM _ hmem).2⟩
  · have : (similarities q M).getD i 0 = 0 := by
      simp [List.getD_eq_getElem?_getD, List.getElem?_len_le hge]
    rw [this]
    norm_num

/-- Reading the similarity-score field of a result item. -/
theorem mkItem_score (df : DataFrame) (sims : List ℚ) (i : Nat) :
    (mkItem df sims i).similarity_score = sims.getD i 0 := rfl

/-! ## Structural facts about fit and the trainer -/

/-- A successful `fit` replaces the whole fitted state wholesale, with the
matrix the vectorizer produced. -/
theorem fit_ok_state (st0 : RecState) (df : DataFrame) (u : Unit) (stf : RecState)
    (h : fit st0 df = (.ok u, stf)) :
    ∃ M, st0.vectorizer.fitTransform (combinedText df) = .ok M ∧
      stf = { vectorizer := st0.vectorizer
              tfidf_matrix := some M
              articles_df := some df
              article_mapping := buildMapping df.rows } := by
  unfold fit at h
  split_ifs at h
  all_goals
    first
      | (simp only [Prod.mk.injEq] at h; exact Except.noConfusion h.1)
      | (split at h
         · simp only [Prod.mk.injEq] at h
           exact Except.noConfusion h.1
         · rename_i M hok
           simp only [Prod.mk.injEq] at h
           exact ⟨M, hok, h.2.symm⟩)

/-- Identifier map produced after the trainer overwrote the identifiers,
with both enumerations started at an arbitrary offset. -/
theorem buildMapping_setIds (rows : List Row) : ∀ k : Nat,
    (((rows.enumFrom k).map
          (fun p => { p.2 with article_id := some (p.1 : Int) })).enumFrom k).map
        (fun p => (p.1, p.2.article_id)) =
      (List.range' k rows.length).map (fun i : Nat => (i, some (i : Int))) := by
  induction rows with
  | nil => intro k; rfl
  | cons r rs ih =>
    intro k
    simp only [List.enumFrom_cons, List.map_cons, List.length_cons, List.range'_succ]
    exact congrArg (List.cons _) (ih (k + 1))

/-- A successful `train_from_csv` yields the state fitted on the
re-identified frame. -/
theorem train_ok_state (vz : Vectorizer) (t : Trainer) (df : DataFrame)
    (st : RecState) (t' : Trainer)
    (h : train_from_csv vz t df = (.ok st, t')) :
    fit (initRecommender vz) (setSequentialIds df) = (.ok (), st) ∧
      t' = { t with recommender := some st } := by
  unfold train_from_csv at h
  rcases hf : fit (initRecommender vz) (setSequentialIds df) with ⟨res, stf⟩
  rw [hf] at h
  simp only [Prod.mk.injEq] at h
  cases res with
  | error e => simp [Except.map] at h
  | ok u =>
    simp only [Except.map, Except.ok.injEq] at h
    obtain ⟨h1, h2⟩ := h
    subst h1
    cases u
    exact ⟨rfl, h2.symm⟩

/-! ## Claim theorems -/

/-- C1: the claim that `recommend` never returns an item carrying the queried
article_id fails on the code.  Fitted on two articles with identical text
(ids 1 and 2), `recommend 1 1` returns article 1 itself: both similarities
are 1, the reversed argsort lists row 1 first, and the slice `[1:n+1]` drops
the duplicate row instead of the query row. -/
theorem c1_recommend_returns_queried_article_on_duplicates :
    (recommend stDup 1 1).map (fun out => out.map (fun it => it.article_id)) =
      .ok [some 1] := by with_unfolding_all rfl

/-- C2 counterexample: on a corpus of two identical articles and a query text
equal to both, the two rows tie at similarity 1 yet the output lists row 1
(article 2) before row 0 (article 1) — the smaller corpus row comes second,
refuting the claimed smaller-row-first tie-break. -/
theorem c2_tie_order_counterexample :
    (recommend_for_content stDup "same text" 2).map
        (fun out => out.map (fun it => (it.article_id, it.similarity_score))) =
      .ok [(some 2, (1 : ℚ)), (some 1, (1 : ℚ))] := by with_unfolding_all rfl

/-- C2 (amended): `recommend_for_content` returns the `contentTopIndices`
ranking mapped to items, and that ranking is ordered by similarity in
non-increasing order.  No tie-break toward the smaller corpus row exists:
the counterexample shows the argsort-reverse idiom emitting the larger row
first on a small corpus, and NumPy's default sort leaves the order of equal
values unspecified in general, so only the value order is asserted. -/
theorem c2_ranked_by_similarity_descending
    (st : RecState) (c : String) (n : Nat) (M : List (List ℚ)) (sims : List ℚ)
    (hM : st.tfidf_matrix = some M)
    (hsims : sims = similarities (st.vectorizer.transform c) M) :
    recommend_for_content st c n =
      .ok ((contentTopIndices sims n).map (mkItem (st.articles_df.getD emptyDf) sims)) ∧
    (contentTopIndices sims n).Pairwise (fun i j =>
      sims.getD j 0 ≤ sims.getD i 0) := by
  subst hsims
  refine ⟨?_, List.Pairwise.imp ?_ (contentTopIndices_pairwise _ n)⟩
  · simp [recommend_for_content, hM]
  · intro i j hr
    rcases hr with h | ⟨h, _⟩
    · exact le_of_lt h
    · exact le_of_eq h.symm

theorem c2_witness :
    stDup.tfidf_matrix = some [[1], [1]] ∧
    ([1, 1] : List ℚ) = similarities (stDup.vectorizer.transform "same text") [[1], [1]] ∧
    (recommend_for_content stDup "same text" 2 =
      .ok ((contentTopIndices [1, 1] 2).map (mkItem (stDup.articles_df.getD emptyDf) [1, 1])) ∧
     (contentTopIndices ([1, 1] : List ℚ) 2).Pairwise (fun i j =>
        ([1, 1] : List ℚ).getD j 0 ≤ ([1, 1] : List ℚ).getD i 0)) :=
  ⟨by decide, by with_unfolding_all rfl,
   c2_ranked_by_similarity_descending stDup "same text" 2 [[1], [1]] [1, 1]
     (by decide) (by with_unfolding_all rfl)⟩

/-- C3: every item returned by `recommend_for_content` has strictly positive
similarity score, while `recommend` applies no positivity filter: on the
corpus of two articles with disjoint vocabularies it returns the unrelated
article with score 0. -/
theorem c3_by_text_positive_by_article_unfiltered :
    (∀ (st : RecState) (c : String) (n : Nat) (out : List RecItem),
        recommend_for_content st c n = .ok out →
        ∀ it ∈ out, 0 < it.similarity_score) ∧
    (recommend stOrtho 1 1).map (fun out => out.map (fun it => it.similarity_score)) =
      .ok [(0 : ℚ)] := by
  constructor
  · intro st c n out h it hit
    cases hM : st.tfidf_matrix with
    | none => simp [recommend_for_content, hM] at h
    | some M =>
      simp only [recommend_for_content, hM, Except.ok.injEq] at h
      subst h
      obtain ⟨i, hi, rfl⟩ := List.mem_map.mp hit
      unfold contentTopIndices at hi
      have hfil := (List.mem_filter.mp hi).2
      rw [mkItem_score]
      exact of_decide_eq_true hfil
  · with_unfolding_all rfl

theorem c3_witness :
    recommend_for_content stDup "same text" 2 = .ok c3out ∧
    ∀ it ∈ c3out, 0 < it.similarity_score :=
  ⟨by with_unfolding_all rfl,
   c3_by_text_positive_by_article_unfiltered.1 stDup "same text" 2 c3out
     (by with_unfolding_all rfl)⟩

/-- C4: on a fitted model, `recommend` called with an article_id matching no
entry of the identifier map returns the empty list rather than an error. -/
theorem c4_unknown_id_returns_empty (st : RecState) (aid : Int) (n : Nat)
    (M : List (List ℚ)) (hM : st.tfidf_matrix = some M)
    (hmiss : ∀ p ∈ st.article_mapping, p.2 ≠ some aid) :
    recommend st aid n = .ok [] := by
  have hfil : st.article_mapping.filter (fun p => decide (p.2 = some aid)) = [] := by
    rw [List.filter_eq_nil_iff]
    intro p hp
    simpa using hmiss p hp
  simp [recommend, hM, hfil]

theorem c4_witness :
    stDup.tfidf_matrix = some [[1], [1]] ∧
    (∀ p ∈ stDup.article_mapping, p.2 ≠ some 9999) ∧
    recommend stDup 9999 3 = .ok [] :=
  ⟨by decide, by decide,
   c4_unknown_id_returns_empty stDup 9999 3 [[1], [1]] (by decide) (by decide)⟩

/-- C5 counterexample: fitting succeeds on a corpus whose second record
arrived without a content field (a NaN cell in the present content column),
contradicting the claim that any record lacking a content field raises the
missing-field error — the code only checks whole-column presence. -/
theorem c5_missing_content_record_fits_ok :
    (fit (initRecommender unitVec) dfMixed).1 = .ok () ∧
    (dfMixed.rows.getD 1 default).content = none ∧ dfMixed.rows ≠ [] :=
  ⟨rfl, rfl, by decide⟩

/-- C5 (amended): fit raises the empty-corpus error exactly when the frame
is empty in the pandas sense (zero rows or zero columns), raises the
missing-field error exactly when the content column is absent from a
non-empty frame, and succeeds whenever the content, article_id and title
columns are all present and the vectorizer accepts the combined texts (a
non-empty vocabulary) — even if individual records lack content values
(those are filled with the empty string). -/
theorem c5_fit_error_policy (st : RecState) (df : DataFrame) :
    (df.rows = [] ∨ df.cols = [] → (fit st df).1 = .error .emptyCorpus) ∧
    (df.rows ≠ [] → df.cols ≠ [] → "content" ∉ df.cols →
      (fit st df).1 = .error .missingContentColumn) ∧
    (∀ M, df.rows ≠ [] → "content" ∈ df.cols → "article_id" ∈ df.cols →
      "title" ∈ df.cols →
      st.vectorizer.fitTransform (combinedText df) = .ok M →
      (fit st df).1 = .ok ()) := by
  refine ⟨fun h1 => ?_, fun h1 h1c h2 => ?_, fun M h1 h2 h3 h4 hok => ?_⟩
  · rcases h1 with h1 | h1 <;> simp [fit, h1]
  · have h1' : df.rows.isEmpty = false := by
      simpa [List.isEmpty_iff] using h1
    have h1c' : df.cols.isEmpty = false := by
      simpa [List.isEmpty_iff] using h1c
    simp [fit, h1', h1c', h2]
  · have h1' : df.rows.isEmpty = false := by
      simpa [List.isEmpty_iff] using h1
    have h1c' : df.cols.isEmpty = false := by
      simp [List.isEmpty_iff]
      intro hc
      rw [hc] at h2
      cases h2
    simp [fit, h1', h1c', h2, h3, h4, hok]

theorem c5_witness :
    dfMixed.rows ≠ [] ∧ "content" ∈ dfMixed.cols ∧ "article_id" ∈ dfMixed.cols ∧
    "title" ∈ dfMixed.cols ∧
    (initRecommender unitVec).vectorizer.fitTransform (combinedText dfMixed) =
      .ok [[1], [1]] ∧
    (fit (initRecommender unitVec) dfMixed).1 = .ok () :=
  ⟨by decide, by decide, by decide, by decide, rfl,
   (c5_fit_error_policy (initRecommender unitVec) dfMixed).2.2 [[1], [1]]
     (by decide) (by decide) (by decide) (by decide) rfl⟩

/-- C6: while no fitted model is present (the matrix field is `none`, as in a
freshly constructed recommender), both query operations fail with the
not-fitted error and never return a default result. -/
theorem c6_queries_fail_when_not_fitted (vz : Vectorizer) (st : RecState)
    (aid : Int) (c : String) (n m : Nat) (h : st.tfidf_matrix = none) :
    recommend st aid n = .error .notFitted ∧
    recommend_for_content st c m = .error .notFitted ∧
    (initRecommender vz).tfidf_matrix = none := by
  refine ⟨?_, ?_, rfl⟩ <;> simp [recommend, recommend_for_content, h]

theorem c6_witness :
    (initRecommender unitVec).tfidf_matrix = none ∧
    (recommend (initRecommender unitVec) 1 3 = .error .notFitted ∧
     recommend_for_content (initRecommender unitVec) "query" 3 = .error .notFitted ∧
     (initRecommender unitVec).tfidf_matrix = none) :=
  ⟨rfl, c6_queries_fail_when_not_fitted unitVec (initRecommender unitVec) 1 "query" 3 3 rfl⟩

/-- C7: after a successful train, saving under a name and loading it back
restores exactly the trained model, so every recommend-by-article query
returns identical results on the reloaded model and the pre-save model. -/
theorem c7_save_load_roundtrip_preserves_recommendations
    (vz : Vectorizer) (t : Trainer) (df : DataFrame) (name : String)
    (st : RecState) (t1 : Trainer)
    (h : train_from_csv vz t df = (.ok st, t1)) :
    ∃ t2 : Trainer, save_model t1 name = (.ok name, t2) ∧
      (load_model t2 name).1 = .ok st ∧
      ∀ aid k, ((load_model t2 name).2.recommender.map (fun r => recommend r aid k)) =
        some (recommend st aid k) := by
  obtain ⟨hf, ht1⟩ := train_ok_state vz t df st t1 h
  subst ht1
  refine ⟨_, rfl, ?_, ?_⟩
  · simp [save_model, load_model]
  · intro aid k
    simp [save_model, load_model]

/-- Recommender produced by the round-trip witness training run. -/
def c7st : RecState := (fit (initRecommender unitVec) (setSequentialIds dfPlain)).2

/-- Trainer state after the round-trip witness training run. -/
def c7tr : Trainer := (train_from_csv unitVec initTrainer dfPlain).2

theorem c7_witness :
    train_from_csv unitVec initTrainer dfPlain = (.ok c7st, c7tr) ∧
    (∃ t2 : Trainer, save_model c7tr "model.pkl" = (.ok "model.pkl", t2) ∧
      (load_model t2 "model.pkl").1 = .ok c7st ∧
      ∀ aid k, ((load_model t2 "model.pkl").2.recommender.map
          (fun r => recommend r aid k)) = some (recommend c7st aid k)) :=
  ⟨rfl, c7_save_load_roundtrip_preserves_recommendations unitVec initTrainer dfPlain
      "model.pkl" c7st c7tr rfl⟩

/-- C8 counterexample: a record arriving with article_id 5 does not keep it —
after training, the fitted identifier map holds the sequential id 0 instead,
refuting the claim that already-present identifiers are left unchanged. -/
theorem c8_existing_identifier_overwritten :
    ((train_from_csv unitVec initTrainer dfPreId).1.map
        (fun st => st.article_mapping)) = .ok [(0, some 0)] ∧
    dfPreId.rows.map (fun r => r.article_id) = [some 5] :=
  ⟨rfl, rfl⟩

/-- C8 (amended): train_from_csv assigns the sequential identifiers 0..n−1 to
all records unconditionally — the fitted identifier map is exactly
position ↦ position, overwriting any identifiers already present. -/
theorem c8_sequential_ids_for_all_rows (vz : Vectorizer) (t t' : Trainer)
    (df : DataFrame) (st : RecState)
    (h : train_from_csv vz t df = (.ok st, t')) :
    st.article_mapping =
      (List.range df.rows.length).map (fun i : Nat => (i, some (i : Int))) := by
  obtain ⟨hf, _⟩ := train_ok_state vz t df st t' h
  obtain ⟨M, _, hstate⟩ := fit_ok_state _ _ _ _ hf
  rw [hstate]
  show buildMapping (setSequentialIds df).rows = _
  unfold buildMapping setSequentialIds List.enum
  rw [List.range_eq_range']
  simpa using buildMapping_setIds df.rows 0

/-- Recommender produced by the identifier-overwrite witness training run. -/
def c8st : RecState := (fit (initRecommender unitVec) (setSequentialIds dfPreId)).2

/-- Trainer state after the identifier-overwrite witness training run. -/
def c8tr : Trainer := (train_from_csv unitVec initTrainer dfPreId).2

theorem c8_witness :
    train_from_csv unitVec initTrainer dfPreId = (.ok c8st, c8tr) ∧
    c8st.article_mapping =
      (List.range dfPreId.rows.length).map (fun i : Nat => (i, some (i : Int))) :=
  ⟨rfl, c8_sequential_ids_for_all_rows unitVec initTrainer c8tr dfPreId c8st rfl⟩

/-- C9: on a fitted model whose matrix rows and transformed query vector are
coordinatewise non-negative with sum of squares at most 1 — as L2-normalized
non-negative TF-IDF vectors are — every similarity score carried by a result
of either query operation lies in the closed interval [0, 1]. -/
theorem c9_scores_within_unit_interval (st : RecState) (M : List (List ℚ))
    (aid : Int) (c : String) (n m : Nat)
    (hM : st.tfidf_matrix = some M)
    (hrows : ∀ row ∈ M, (∀ x ∈ row, 0 ≤ x) ∧ sumSq row ≤ 1)
    (hq : (∀ x ∈ st.vectorizer.transform c, 0 ≤ x) ∧
      sumSq (st.vectorizer.transform c) ≤ 1) :
    (∀ out, recommend st aid n = .ok out →
      ∀ it ∈ out, 0 ≤ it.similarity_score ∧ it.similarity_score ≤ 1) ∧
    (∀ out, recommend_for_content st c m = .ok out →
      ∀ it ∈ out, 0 ≤ it.similarity_score ∧ it.similarity_score ≤ 1) := by
  constructor
  · intro out h it hit
    simp only [recommend, hM] at h
    split at h
    · simp only [Except.ok.injEq] at h
      subst h
      cases hit
    · next idx rest _ =>
      simp only [Except.ok.injEq] at h
      subst h
      obtain ⟨i, hi, rfl⟩ := List.mem_map.mp hit
      rw [mkItem_score]
      have hq0 : (∀ x ∈ M.getD idx [], 0 ≤ x) ∧ sumSq (M.getD idx []) ≤ 1 := by
        rcases Nat.lt_or_ge idx M.length with hlt | hge
        · have hv : M.getD idx [] = M[idx] := by
            simp [List.getD_eq_getElem?_getD, List.getElem?_eq_getElem hlt]
          rw [hv]
          exact hrows _ (List.getElem_mem hlt)
        · have hv : M.getD idx [] = [] := by
            simp [List.getD_eq_getElem?_getD, List.getElem?_len_le hge]
          rw [hv]
          exact ⟨by simp, by rw [sumSq_nil]; norm_num⟩
      exact simsGetD_bounds _ M i hq0.1 hq0.2 hrows
  · intro out h it hit
    simp only [recommend_for_content, hM, Except.ok.injEq] at h
    subst h
    obtain ⟨i, hi, rfl⟩ := List.mem_map.mp hit
    rw [mkItem_score]
    exact simsGetD_bounds _ M i hq.1 hq.2 hrows

theorem c9_witness :
    stOrtho.tfidf_matrix = some [[1, 0], [0, 1]] ∧
    (∀ row ∈ [[(1 : ℚ), 0], [0, 1]], (∀ x ∈ row, 0 ≤ x) ∧ sumSq row ≤ 1) ∧
    ((∀ x ∈ stOrtho.vectorizer.transform "query", 0 ≤ x) ∧
      sumSq (stOrtho.vectorizer.transform "query") ≤ 1) ∧
    ((∀ out, recommend stOrtho 1 1 = .ok out →
        ∀ it ∈ out, 0 ≤ it.similarity_score ∧ it.similarity_score ≤ 1) ∧
     (∀ out, recommend_for_content stOrtho "query" 1 = .ok out →
        ∀ it ∈ out, 0 ≤ it.similarity_score ∧ it.similarity_score ≤ 1)) :=
  ⟨by decide, by with_unfolding_all decide, by with_unfolding_all decide,
   c9_scores_within_unit_interval stOrtho [[1, 0], [0, 1]] 1 "query" 1 1
     (by decide) (by with_unfolding_all decide) (by with_unfolding_all decide)⟩

/-- C10: when fit fails one of its two validation checks (empty corpus, or
content column absent) the recommender state is returned exactly unchanged,
so a previously fitted model stays intact and queryable. -/
theorem c10_fit_atomic_on_validation_errors (st st' : RecState) (df : DataFrame)
    (e : FitError) (h : fit st df = (.error e, st'))
    (he : e = .emptyCorpus ∨ e = .missingContentColumn) :
    st' = st := by
  unfold fit at h
  split_ifs at h
  all_goals
    first
      | (simp only [Prod.mk.injEq] at h; exact h.2.symm)
      | (split at h <;> rcases he with rfl | rfl <;> simp at h)
      | (rcases he with rfl | rfl <;> simp at h)

theorem c10_witness :
    fit (initRecommender unitVec) dfNoRows =
      (.error .emptyCorpus, initRecommender unitVec) ∧
    (FitError.emptyCorpus = FitError.emptyCorpus ∨
      FitError.emptyCorpus = FitError.missingContentColumn) ∧
    initRecommender unitVec = initRecommender unitVec :=
  ⟨rfl, Or.inl rfl,
   c10_fit_atomic_on_validation_errors (initRecommender unitVec)
     (initRecommender unitVec) dfNoRows .emptyCorpus rfl (Or.inl rfl)⟩

end NewsReco
